import Mathlib

/-!
Verification of the deterministic generation and seamless-loop engine:
shallow embedding of the PRNG hierarchy (prng.js), parameter derivation
(params.js), loop interpolation (interpolation.js), the renderer's
fractional-count blending (renderer.js), the frame pre-render pipeline and
export encoder (animation controller module), and the export manifest
(export.js).  Machine floats are modelled exactly: 32-bit integer mixing
over Nat with explicit reductions mod 2^32, rational arithmetic for the
parameter derivation, and real arithmetic for the interpolator (whose
cosine easing uses the transcendental cosine).
-/

/-! ## Math utilities (prng.js: clamp01, lerp) -/

/-- Embedding of `clamp01(x) = Math.max(0, Math.min(1, x))` from prng.js. -/
def clamp01 {α : Type} [LinearOrderedField α] (x : α) : α := max 0 (min 1 x)

/-- Embedding of `lerp(a, b, t) = a + (b - a) * t` from prng.js. -/
def lerp {α : Type} [LinearOrderedField α] (a b t : α) : α := a + (b - a) * t

/-! ## PRNG hierarchy (prng.js: xmur3, mulberry32) -/

/-- 2^32, the modulus of JavaScript 32-bit integer coercions. -/
def U32 : ℕ := 4294967296

/-- Embedding of `Math.imul`: the low 32 bits of the product. -/
def imul (a b : ℕ) : ℕ := a * b % U32

/-- One iteration of the xmur3 seeding loop body:
`h = imul(h ^ c, 3432918353); h = (h << 13) | (h >>> 19)` (a 32-bit
rotate left by 13). -/
def xmur3Step (h c : ℕ) : ℕ :=
  let h1 := imul (h ^^^ (c % U32)) 3432918353
  ((h1 <<< 13) % U32) ||| (h1 >>> 19)

/-- The xmur3 internal state after hashing the whole seed string,
starting from `1779033703 ^ str.length` and folding the loop body over
the character codes. -/
def xmur3Init (s : List ℕ) : ℕ :=
  s.foldl xmur3Step (1779033703 ^^^ (s.length % U32))

/-- One call of the closure returned by `xmur3`: the final avalanche
`h = imul(h ^ (h >>> 16), 2246822507); h = imul(h ^ (h >>> 13), 3266489909);
h ^= h >>> 16; return h >>> 0`.  The returned value is also the new state. -/
def xmur3Mix (h : ℕ) : ℕ :=
  let h1 := imul (h ^^^ (h >>> 16)) 2246822507
  let h2 := imul (h1 ^^^ (h1 >>> 13)) 3266489909
  (h2 ^^^ (h2 >>> 16)) % U32

/-- The mulberry32 state update: `t = a += 0x6D2B79F5` (mod 2^32). -/
def mulberryNext (a : ℕ) : ℕ := (a + 0x6D2B79F5) % U32

/-- The mulberry32 output scramble of a state `t`:
`t = imul(t ^ (t >>> 15), t | 1); t ^= t + imul(t ^ (t >>> 7), t | 61);
(t ^ (t >>> 14)) >>> 0`. -/
def mulberryVal (t : ℕ) : ℕ :=
  let t1 := imul (t ^^^ (t >>> 15)) (t ||| 1)
  let t2 := (t1 ^^^ ((t1 + imul (t1 ^^^ (t1 >>> 7)) (t1 ||| 61)) % U32)) % U32
  (t2 ^^^ (t2 >>> 14)) % U32

/-- The mulberry32 state after `n` draws from initial state `a`. -/
def mulberryState (a : ℕ) : ℕ → ℕ
  | 0 => a % U32
  | n + 1 => mulberryNext (mulberryState a n)

/-- The n-th float (0-indexed) drawn from the PRNG hierarchy built from a
seed string `s` (character codes): `seedFn = xmur3(s); rng =
mulberry32(seedFn())`, then `n+1` calls of `rng`, the last of which
returns `scrambledState / 4294967296`. -/
def prngDraw (s : List ℕ) (n : ℕ) : ℚ :=
  (mulberryVal (mulberryState (xmur3Mix (xmur3Init s)) (n + 1)) : ℚ) / (U32 : ℚ)

/-! ## Aspect sets and landmarks -/

/-- The six-field aspect record (coherence, tension, recursion, motion,
vulnerability, radiance), parametric in the number field. -/
@[ext]
structure Aspects (α : Type) where
  coherence : α
  tension : α
  recursion : α
  motion : α
  vulnerability : α
  radiance : α
deriving Repr, DecidableEq

instance {α : Type} [LinearOrderedField α] : Inhabited (Aspects α) :=
  ⟨⟨0, 0, 0, 0, 0, 0⟩⟩

/-- A landmark: a named aspect set (the note/seed fields of the stored
object are not read by the interpolator). -/
structure Landmark where
  name : String
  aspects : Aspects ℝ

/-- Default landmark used to totalize JavaScript array indexing; never
reached for the in-contract indices. -/
noncomputable def defaultLandmark : Landmark := ⟨"", ⟨0, 0, 0, 0, 0, 0⟩⟩

/-! ## Loop interpolator (interpolation.js) -/

/-- Embedding of `TIME_WARP_STRENGTH = 0.78`. -/
noncomputable def TIME_WARP_STRENGTH : ℝ := 0.78

/-- Embedding of `smootherstep(t)`: clamp then `t*t*t*(t*(t*6-15)+10)`. -/
noncomputable def smootherstep (t : ℝ) : ℝ :=
  let t := clamp01 t
  t * t * t * (t * (t * 6 - 15) + 10)

/-- Embedding of `warpSegmentT(t, strength) = lerp(t, smootherstep(t), clamp01(strength))`. -/
noncomputable def warpSegmentT (t strength : ℝ) : ℝ := lerp t (smootherstep t) (clamp01 strength)

/-- Embedding of `cosineEase(t) = 0.5 - 0.5 * Math.cos(PI * t)`. -/
noncomputable def cosineEase (t : ℝ) : ℝ := 0.5 - 0.5 * Real.cos (Real.pi * t)

/-- Embedding of the Catmull-Rom cubic from interpolation.js. -/
noncomputable def catmullRom (p0 p1 p2 p3 t : ℝ) : ℝ :=
  let t2 := t * t
  let t3 := t2 * t
  0.5 * ((2 * p1) + (-p0 + p2) * t + (2 * p0 - 5 * p1 + 4 * p2 - p3) * t2 +
    (-p0 + 3 * p1 - 3 * p2 + p3) * t3)

/-- JavaScript array access `landmarks[i]` for an integer index; in every
in-contract use the index lies in `[0, length)`.  (JavaScript `%` agrees
with the mathematical remainder used below on the nonnegative operands
that arise for `tNorm ≥ 0`.) -/
noncomputable def nthLandmark (landmarks : List Landmark) (i : ℤ) : Landmark :=
  landmarks.getD i.toNat defaultLandmark

/-- Embedding of `evalAspectsAt(tNorm, landmarks)` from interpolation.js. -/
noncomputable def evalAspectsAt (tNorm : ℝ) (landmarks : List Landmark) :
    Option (Aspects ℝ) :=
  let n := landmarks.length
  if n < 2 then none
  else if n = 2 then
    let a0 := (landmarks.getD 0 defaultLandmark).aspects
    let a1 := (landmarks.getD 1 defaultLandmark).aspects
    let phase := if tNorm < 0.5 then tNorm * 2 else 2 - tNorm * 2
    let warped := warpSegmentT phase (TIME_WARP_STRENGTH * 0.55)
    let u := cosineEase warped
    some ⟨lerp a0.coherence a1.coherence u,
          lerp a0.tension a1.tension u,
          lerp a0.recursion a1.recursion u,
          lerp a0.motion a1.motion u,
          lerp a0.vulnerability a1.vulnerability u,
          lerp a0.radiance a1.radiance u⟩
  else
    let seg := tNorm * (n : ℝ)
    let i1 := ⌊seg⌋ % (n : ℤ)
    let tLinear := seg - (⌊seg⌋ : ℝ)
    let t := warpSegmentT tLinear TIME_WARP_STRENGTH
    let i0 := (i1 - 1 + (n : ℤ)) % (n : ℤ)
    let i2 := (i1 + 1) % (n : ℤ)
    let i3 := (i1 + 2) % (n : ℤ)
    let A0 := (nthLandmark landmarks i0).aspects
    let A1 := (nthLandmark landmarks i1).aspects
    let A2 := (nthLandmark landmarks i2).aspects
    let A3 := (nthLandmark landmarks i3).aspects
    some ⟨clamp01 (catmullRom A0.coherence A1.coherence A2.coherence A3.coherence t),
          clamp01 (catmullRom A0.tension A1.tension A2.tension A3.tension t),
          clamp01 (catmullRom A0.recursion A1.recursion A2.recursion A3.recursion t),
          clamp01 (catmullRom A0.motion A1.motion A2.motion A3.motion t),
          clamp01 (catmullRom A0.vulnerability A1.vulnerability A2.vulnerability A3.vulnerability t),
          clamp01 (catmullRom A0.radiance A1.radiance A2.radiance A3.radiance t)⟩

/-- All six aspect fields lie in the unit interval. -/
def inUnit (a : Aspects ℝ) : Prop :=
  0 ≤ a.coherence ∧ a.coherence ≤ 1 ∧
  0 ≤ a.tension ∧ a.tension ≤ 1 ∧
  0 ≤ a.recursion ∧ a.recursion ≤ 1 ∧
  0 ≤ a.motion ∧ a.motion ≤ 1 ∧
  0 ≤ a.vulnerability ∧ a.vulnerability ≤ 1 ∧
  0 ≤ a.radiance ∧ a.radiance ≤ 1

/-- All six aspect fields lie in the unit interval (rational variant,
for the parameter-derivation module). -/
def inUnitQ (a : Aspects ℚ) : Prop :=
  0 ≤ a.coherence ∧ a.coherence ≤ 1 ∧
  0 ≤ a.tension ∧ a.tension ≤ 1 ∧
  0 ≤ a.recursion ∧ a.recursion ≤ 1 ∧
  0 ≤ a.motion ∧ a.motion ≤ 1 ∧
  0 ≤ a.vulnerability ∧ a.vulnerability ≤ 1 ∧
  0 ≤ a.radiance ∧ a.radiance ≤ 1

/-! ## Parameter derivation (params.js) -/

/-- A deterministic RNG stream in the state-passing style: the underlying
value sequence plus the index of the next draw.  Each call of the
JavaScript closure `rng()` returns the value at the current index and
advances the index. -/
structure Rng where
  f : ℕ → ℚ
  idx : ℕ

/-- One call of the rng closure. -/
def Rng.next (r : Rng) : ℚ × Rng := (r.f r.idx, ⟨r.f, r.idx + 1⟩)

/-- Every value the stream can produce lies in `[0, 1)` (as the
mulberry32 stream does). -/
def Rng.inRange (r : Rng) : Prop := ∀ i, 0 ≤ r.f i ∧ r.f i < 1

/-- JavaScript truncation toward zero (the rounding used by the `%`
operator on numbers). -/
def jsTrunc (x : ℚ) : ℤ := if 0 ≤ x then ⌊x⌋ else ⌈x⌉

/-- JavaScript `x % y` on numbers: `x - y * trunc(x / y)`. -/
def jsMod (x y : ℚ) : ℚ := x - y * (jsTrunc (x / y) : ℚ)

/-- The record returned by `deriveParams` (params.js). -/
structure DerivedParams where
  symmetry : ℚ
  fracture : ℚ
  density : ℚ
  flow : ℚ
  lum : ℚ
  bleed : ℚ
  edgeSharpness : ℚ
  multiAxis : ℚ
  hue : ℚ
  nodeCount : ℤ
  nodeCountF : ℚ
  shardLayers : ℤ
  shardLayersF : ℚ
  shardsPerLayer : ℤ
  shardsPerLayerF : ℚ
  grain : ℚ
  shardAlpha : ℚ

/-- Embedding of `deriveParams(a, rng)` from params.js; the three rng
draws (palette wobble, high-radiance hue candidate, low-radiance hue
candidate) are threaded through the state-passing stream in source
order, and the final stream state is returned alongside the record. -/
def deriveParams (a : Aspects ℚ) (rng : Rng) : DerivedParams × Rng :=
  let symmetry := clamp01 (lerp 0.25 0.95 a.coherence * (1 - 0.25 * a.tension))
  let fracture := clamp01 (lerp 0.05 0.85 a.tension * (1 - 0.18 * a.coherence))
  let density := clamp01 (lerp 0.15 0.95 a.recursion + 0.08 * a.vulnerability)
  let flow := clamp01 (lerp 0.00 0.95 a.motion * (1 - 0.12 * a.coherence) + 0.03 * a.tension)
  let lum := clamp01 (lerp 0.15 0.95 a.radiance)
  let bleed := clamp01 (lerp 0.00 1.00 a.vulnerability * (1 - 0.35 * a.tension))
  let edgeSharpness := clamp01 (lerp 0.15 0.95 a.tension * (1 - 0.45 * a.vulnerability))
  let multiAxis := clamp01 ((1 - a.coherence) * a.tension)
  let n0 := rng.next
  let paletteWobble := (n0.1 * 2 - 1) * 14
  let n1 := n0.2.next
  let hueHigh := lerp 215 315 n1.1
  let n2 := n1.2.next
  let hueLow := lerp 190 285 n2.1
  let radBlend := clamp01 ((a.radiance - 0.55) / 0.14)
  let baseHue := lerp hueLow hueHigh radBlend
  let hue := jsMod (baseHue + lerp (-35) 45 a.tension + paletteWobble + 360) 360
  let nodeCountF := lerp 3 11 density
  let shardLayersF := 2 + lerp 1 6 density
  let shardsPerLayerF := 10 + lerp 8 36 density
  let nodeCount := ⌊nodeCountF⌋
  let shardLayers := ⌊shardLayersF⌋
  let shardsPerLayer := ⌊shardsPerLayerF⌋
  let grain := lerp 0.02 0.08 (1 - lum) + 0.02 * fracture
  let shardAlphaBase := lerp 0.04 0.12 lum * lerp 0.9 1.25 (1 - edgeSharpness)
  let shardAlpha := clamp01 (shardAlphaBase + 0.05 * bleed)
  (⟨symmetry, fracture, density, flow, lum, bleed, edgeSharpness, multiAxis, hue,
    nodeCount, nodeCountF, shardLayers, shardLayersF, shardsPerLayer, shardsPerLayerF,
    grain, shardAlpha⟩, n2.2)

/-! ## Renderer fractional-count blending (renderer.js) -/

/-- Embedding of the glow count `glowCountF = 5 + lerp(1, 8, aspects.radiance)`
from renderWith. -/
def glowCountF (radiance : ℚ) : ℚ := 5 + lerp 1 8 radiance

/-- The per-element opacity/weight scale factors produced by the
renderer's fractional-count loops
(`for (i = 0; i <= floor(countF); i++) ... isLast ? frac : 1`): one
entry per loop iteration, in iteration order. -/
def fracWeights (countF : ℚ) : List ℚ :=
  let floorC := (⌊countF⌋).toNat
  let fracC := countF - (⌊countF⌋ : ℚ)
  (List.range (floorC + 1)).map (fun i => if i = floorC then fracC else 1)

/-- The four fractional element counts a render of `renderWith` produces:
glow count, node count, shard-layer count, shards-per-layer count. -/
def renderCounts (a : Aspects ℚ) (rng : Rng) : List ℚ :=
  let p := (deriveParams a rng).1
  [glowCountF a.radiance, p.nodeCountF, p.shardLayersF, p.shardsPerLayerF]

/-! ## Frame pre-render pipeline (animation controller: preRenderFrames) -/

/-- Outcome of the frame pre-render loop: the returned value (`none` =
cancelled, as the source returns `null`), the log of every frame bitmap
captured during the run, and the log of every frame bitmap closed
(released) during the run. -/
structure PreOut where
  result : Option (List ℕ)
  captured : List ℕ
  closed : List ℕ

/-- The capture loop of `preRenderFrames`: at the top of each iteration
the cancellation predicate is consulted; on cancellation every bitmap
captured so far is closed and `null` is returned, otherwise the frame is
rendered, captured and appended. -/
def preRenderGo (isCancelled : ℕ → Bool) (totalFrames f : ℕ) (acc : List ℕ) : PreOut :=
  if h : f < totalFrames then
    if isCancelled f then ⟨none, acc, acc⟩
    else preRenderGo isCancelled totalFrames (f + 1) (acc ++ [f])
  else ⟨some acc, acc, []⟩
termination_by totalFrames - f

/-- Embedding of the capture phase of `preRenderFrames` (the pre-roll
renders nothing into the frame list and is irrelevant to capture and
release).  Frames are identified by their index. -/
def preRenderFrames (isCancelled : ℕ → Bool) (totalFrames : ℕ) : PreOut :=
  preRenderGo isCancelled totalFrames 0 []

/-! ## Export encoder (animation controller: exportFromBuffer) -/

/-- The host capabilities the export encoder consults: presence of the
WebCodecs classes, the per-codec support probe, whether the encode loop
throws, and the size of the produced video payload. -/
structure Host where
  hasVideoEncoder : Bool
  codecSupported : String → Bool
  encodeThrows : Bool
  videoBlobSize : ℕ

/-- The ordered codec candidate list from `_exportBufferViaWebCodecs`. -/
def codecCandidates : List String := ["avc1.42E01E", "avc1.640028"]

/-- The result record of `exportFromBuffer`: either a video payload or a
PNG frame sequence (frames carried as their ordered index list). -/
inductive ExportRec where
  | video (ext : String) (fps durationMs totalFrames : ℕ)
  | frames (frameIdx : List ℕ) (fps durationMs totalFrames : ℕ)

/-- The `kind` tag of a result, exactly the string stored by the source
(`'video'` | `'frames'`). -/
def ExportRec.kind : ExportRec → String
  | .video _ _ _ _ => "video"
  | .frames _ _ _ _ => "frames"

/-- The ordered index list of the PNG frame sequence (empty for video). -/
def ExportRec.frameList : ExportRec → List ℕ
  | .video _ _ _ _ => []
  | .frames l _ _ _ => l

/-- Codec negotiation: the first candidate the host reports as supported. -/
def chooseCodec (host : Host) : Option String :=
  codecCandidates.find? host.codecSupported

/-- Embedding of `_exportBufferViaWebCodecs`: `none` when no codec is
chosen, the encoder throws mid-stream, or the produced payload is below
the 1024-byte sanity threshold; otherwise the mp4 video result. -/
def exportBufferViaWebCodecs (host : Host) (totalFrames fps durationMs : ℕ) :
    Option ExportRec :=
  match chooseCodec host with
  | none => none
  | some _ =>
    if host.encodeThrows then none
    else if host.videoBlobSize < 1024 then none
    else some (.video ("mp4") fps durationMs totalFrames)

/-- Embedding of `_exportBufferViaPng`: every frame is re-encoded as a
PNG and returned as an ordered, indexed sequence. -/
def exportBufferViaPng (totalFrames fps durationMs : ℕ) : ExportRec :=
  .frames (List.range totalFrames) fps durationMs totalFrames

/-- Embedding of `exportFromBuffer`: try the WebCodecs path when the
host exposes `VideoEncoder`/`VideoFrame`, fall back to the PNG frame
sequence otherwise. -/
def exportFromBuffer (host : Host) (frames : List ℕ) (fps durationMs : ℕ) : ExportRec :=
  let totalFrames := frames.length
  if host.hasVideoEncoder then
    match exportBufferViaWebCodecs host totalFrames fps durationMs with
    | some r => r
    | none => exportBufferViaPng totalFrames fps durationMs
  else exportBufferViaPng totalFrames fps durationMs

/-! ## Export manifest (export.js: packageAnimZip) -/

/-- The top-level keys of the animation manifest object built by
`packageAnimZip`, in source order. -/
def animManifestKeys : List String :=
  ["kind", "export_kind", "seed", "fps", "duration_ms", "total_frames",
   "time_warp_strength", "motion_blur", "landmarks", "generated_at", "files"]

/-- The value of the manifest's `kind` field. -/
def animManifestKindValue : String := "animation"

/-- The keys of the manifest's `motion_blur` sub-object, in source order. -/
def motionBlurKeys : List String := ["enabled", "decay", "add"]

/-- Modelled from the spec: the exact top-level field set the spec's §6
manifest contract names for animations
(`kind, fps, duration_ms, total_frames, time_warp_strength, motion_blur,
landmarks`); defined from the spec's words for refinement comparison
against `animManifestKeys`. -/
def specManifestKeys : List String :=
  ["kind", "fps", "duration_ms", "total_frames", "time_warp_strength",
   "motion_blur", "landmarks"]

/-! ## Concrete inputs used by the witnesses below -/

/-- A concrete aspect input with all six fields at 1/2. -/
def aspectsHalf : Aspects ℚ := ⟨1/2, 1/2, 1/2, 1/2, 1/2, 1/2⟩

/-- A concrete aspect input with all six fields at 0. -/
def aspectsZero : Aspects ℚ := ⟨0, 0, 0, 0, 0, 0⟩

/-- A concrete RNG stream constantly drawing 1/2. -/
def rngHalf : Rng := ⟨fun _ => 1/2, 0⟩

/-- A concrete RNG stream constantly drawing 0. -/
def rngZero : Rng := ⟨fun _ => 0, 0⟩

/-- Concrete landmark A of the spec's two-landmark example. -/
noncomputable def landmarkA : Landmark := ⟨"A", ⟨0.9, 0.9, 0.9, 0.9, 0.9, 0.9⟩⟩

/-- Concrete landmark B of the spec's two-landmark example. -/
noncomputable def landmarkB : Landmark := ⟨"B", ⟨0.1, 0.1, 0.1, 0.1, 0.1, 0.1⟩⟩

/-- Concrete third landmark for the spline case. -/
noncomputable def landmarkC : Landmark := ⟨"C", ⟨0.5, 0.5, 0.5, 0.5, 0.5, 0.5⟩⟩

/-- A concrete two-landmark loop. -/
noncomputable def pairLandmarks : List Landmark := [landmarkA, landmarkB]

/-- A concrete three-landmark loop. -/
noncomputable def triLandmarks : List Landmark := [landmarkA, landmarkB, landmarkC]

/-- A concrete host with no video-encoding capability. -/
def hostNone : Host := ⟨false, fun _ => false, false, 0⟩

/-- The six-field linear blend of the two-landmark branch of
`evalAspectsAt` (one `lerp` per aspect field at blend factor `u`). -/
noncomputable def twoBlend (a0 a1 : Aspects ℝ) (u : ℝ) : Aspects ℝ :=
  ⟨lerp a0.coherence a1.coherence u,
   lerp a0.tension a1.tension u,
   lerp a0.recursion a1.recursion u,
   lerp a0.motion a1.motion u,
   lerp a0.vulnerability a1.vulnerability u,
   lerp a0.radiance a1.radiance u⟩

/-! ## Helper lemmas -/

section Helpers

variable {α : Type} [LinearOrderedField α]

lemma clamp01_nonneg (x : α) : 0 ≤ clamp01 x := le_max_left 0 _

lemma clamp01_le_one (x : α) : clamp01 x ≤ 1 :=
  max_le zero_le_one (min_le_left 1 x)

lemma clamp01_eq_self {x : α} (h0 : 0 ≤ x) (h1 : x ≤ 1) : clamp01 x = x := by
  unfold clamp01
  rw [min_eq_right h1, max_eq_right h0]

lemma lerp_zero_t (a b : α) : lerp a b 0 = a := by unfold lerp; ring

lemma lerp_one_t (a b : α) : lerp a b 1 = b := by unfold lerp; ring

lemma lerp_unit_mem {a b t : α} (ha0 : 0 ≤ a) (ha1 : a ≤ 1) (hb0 : 0 ≤ b)
    (hb1 : b ≤ 1) (ht0 : 0 ≤ t) (ht1 : t ≤ 1) :
    0 ≤ lerp a b t ∧ lerp a b t ≤ 1 := by
  unfold lerp
  constructor <;> nlinarith

end Helpers

lemma smootherstep_zero : smootherstep 0 = 0 := by
  have h : clamp01 (0 : ℝ) = 0 := clamp01_eq_self le_rfl zero_le_one
  simp only [smootherstep, h]
  ring

lemma smootherstep_one : smootherstep 1 = 1 := by
  have h : clamp01 (1 : ℝ) = 1 := clamp01_eq_self zero_le_one le_rfl
  simp only [smootherstep, h]
  ring

lemma warpSegmentT_zero (s : ℝ) : warpSegmentT 0 s = 0 := by
  simp only [warpSegmentT, smootherstep_zero, lerp]
  ring

lemma warpSegmentT_one (s : ℝ) : warpSegmentT 1 s = 1 := by
  simp only [warpSegmentT, smootherstep_one, lerp]
  ring

lemma cosineEase_zero : cosineEase 0 = 0 := by
  simp [cosineEase]

lemma cosineEase_one : cosineEase 1 = 1 := by
  simp [cosineEase, Real.cos_pi]
  norm_num

lemma cosineEase_mem (t : ℝ) : 0 ≤ cosineEase t ∧ cosineEase t ≤ 1 := by
  have h1 := Real.neg_one_le_cos (Real.pi * t)
  have h2 := Real.cos_le_one (Real.pi * t)
  unfold cosineEase
  constructor <;> linarith

lemma catmullRom_zero (p0 p1 p2 p3 : ℝ) : catmullRom p0 p1 p2 p3 0 = p1 := by
  unfold catmullRom
  ring

lemma jsMod_mem_360 {x : ℚ} (hx : 0 ≤ x) : 0 ≤ jsMod x 360 ∧ jsMod x 360 < 360 := by
  have hq : (0 : ℚ) ≤ x / 360 := by positivity
  unfold jsMod jsTrunc
  rw [if_pos hq]
  have h1 : ((⌊x / 360⌋ : ℚ)) ≤ x / 360 := Int.floor_le _
  have h2 : x / 360 < ⌊x / 360⌋ + 1 := Int.lt_floor_add_one _
  constructor <;> nlinarith

/-! ## Claims C3 and C4: parameter derivation -/

/-- Claim C4: for every pair of aspect inputs and every RNG stream,
`deriveParams` consumes exactly three draws (palette wobble and the two
hue candidates), so the final stream state is the input stream advanced
by exactly 3 — identical for any two aspect inputs. -/
theorem deriveParams_const_draws (a b : Aspects ℚ) (rng : Rng) :
    (deriveParams a rng).2 = ⟨rng.f, rng.idx + 3⟩ ∧
    (deriveParams a rng).2 = (deriveParams b rng).2 := by
  constructor <;> rfl


lemma grain_mem {l f : ℚ} (hl0 : 0 ≤ l) (hl1 : l ≤ 1) (hf0 : 0 ≤ f) (hf1 : f ≤ 1) :
    0 ≤ lerp 0.02 0.08 (1 - l) + 0.02 * f ∧ lerp 0.02 0.08 (1 - l) + 0.02 * f ≤ 1 := by
  unfold lerp
  constructor <;> nlinarith

lemma hueArg_nonneg {d0 d1 d2 ten rb : ℚ} (h0 : 0 ≤ d0) (h1 : 0 ≤ d1) (h2 : 0 ≤ d2)
    (ht : 0 ≤ ten) (hrb0 : 0 ≤ rb) (hrb1 : rb ≤ 1) :
    0 ≤ lerp (lerp 190 285 d2) (lerp 215 315 d1) rb + lerp (-35) 45 ten +
      (d0 * 2 - 1) * 14 + 360 := by
  unfold lerp
  nlinarith [mul_nonneg hrb0 h1, mul_nonneg (sub_nonneg.mpr hrb1) h2]

lemma countF_nonneg {d : ℚ} (hd0 : 0 ≤ d) :
    0 ≤ lerp 3 11 d ∧ 0 ≤ 2 + lerp 1 6 d ∧ 0 ≤ 10 + lerp 8 36 d := by
  unfold lerp
  refine ⟨by nlinarith, by nlinarith, by nlinarith⟩

lemma sub_floor_mem (x : ℚ) : 0 ≤ x - (⌊x⌋ : ℚ) ∧ x - (⌊x⌋ : ℚ) < 1 := by
  rw [Int.self_sub_floor]
  exact ⟨Int.fract_nonneg _, Int.fract_lt_one _⟩

/-- Claim C3: with all six aspect fields in [0,1] and a [0,1) RNG
stream, every scalar field of the derived record except hue and the
counts lies in [0,1]; hue lies in [0,360); the float counts are
nonnegative; each integer count equals the floor of its float
counterpart, so each fractional remainder is in [0,1). -/
theorem deriveParams_bounds (a : Aspects ℚ) (rng : Rng) (p : DerivedParams)
    (ha : inUnitQ a) (hr : Rng.inRange rng)
    (hp : p = (deriveParams a rng).1) :
    (0 ≤ p.symmetry ∧ p.symmetry ≤ 1) ∧
    (0 ≤ p.fracture ∧ p.fracture ≤ 1) ∧
    (0 ≤ p.density ∧ p.density ≤ 1) ∧
    (0 ≤ p.flow ∧ p.flow ≤ 1) ∧
    (0 ≤ p.lum ∧ p.lum ≤ 1) ∧
    (0 ≤ p.bleed ∧ p.bleed ≤ 1) ∧
    (0 ≤ p.edgeSharpness ∧ p.edgeSharpness ≤ 1) ∧
    (0 ≤ p.multiAxis ∧ p.multiAxis ≤ 1) ∧
    (0 ≤ p.grain ∧ p.grain ≤ 1) ∧
    (0 ≤ p.shardAlpha ∧ p.shardAlpha ≤ 1) ∧
    (0 ≤ p.hue ∧ p.hue < 360) ∧
    (0 ≤ p.nodeCountF ∧ 0 ≤ p.shardLayersF ∧ 0 ≤ p.shardsPerLayerF) ∧
    (p.nodeCount = ⌊p.nodeCountF⌋ ∧
      0 ≤ p.nodeCountF - (p.nodeCount : ℚ) ∧ p.nodeCountF - (p.nodeCount : ℚ) < 1) ∧
    (p.shardLayers = ⌊p.shardLayersF⌋ ∧
      0 ≤ p.shardLayersF - (p.shardLayers : ℚ) ∧ p.shardLayersF - (p.shardLayers : ℚ) < 1) ∧
    (p.shardsPerLayer = ⌊p.shardsPerLayerF⌋ ∧
      0 ≤ p.shardsPerLayerF - (p.shardsPerLayer : ℚ) ∧
      p.shardsPerLayerF - (p.shardsPerLayer : ℚ) < 1) := by
  subst hp
  obtain ⟨hc0, hc1, ht0, ht1, hre0, hre1, hm0, hm1, hv0, hv1, hrad0, hrad1⟩ := ha
  have h0 := hr rng.idx
  have h1 := hr (rng.idx + 1)
  have h2 := hr (rng.idx + 2)
  simp only [deriveParams, Rng.next]
  exact ⟨⟨clamp01_nonneg _, clamp01_le_one _⟩, ⟨clamp01_nonneg _, clamp01_le_one _⟩,
    ⟨clamp01_nonneg _, clamp01_le_one _⟩, ⟨clamp01_nonneg _, clamp01_le_one _⟩,
    ⟨clamp01_nonneg _, clamp01_le_one _⟩, ⟨clamp01_nonneg _, clamp01_le_one _⟩,
    ⟨clamp01_nonneg _, clamp01_le_one _⟩, ⟨clamp01_nonneg _, clamp01_le_one _⟩,
    grain_mem (clamp01_nonneg _) (clamp01_le_one _) (clamp01_nonneg _) (clamp01_le_one _),
    ⟨clamp01_nonneg _, clamp01_le_one _⟩,
    jsMod_mem_360 (hueArg_nonneg h0.1 h1.1 h2.1 ht0 (clamp01_nonneg _) (clamp01_le_one _)),
    countF_nonneg (clamp01_nonneg _),
    ⟨by trivial, sub_floor_mem _⟩, ⟨by trivial, sub_floor_mem _⟩, ⟨by trivial, sub_floor_mem _⟩⟩

/-- Witness for claim C3 at a concrete aspect input and RNG stream. -/
theorem deriveParams_bounds_witness :
    inUnitQ aspectsHalf ∧ Rng.inRange rngHalf ∧
    (0 ≤ ((deriveParams aspectsHalf rngHalf).1).hue ∧
      ((deriveParams aspectsHalf rngHalf).1).hue < 360) :=
  ⟨by norm_num [inUnitQ, aspectsHalf],
   fun i => by norm_num [rngHalf],
   (deriveParams_bounds aspectsHalf rngHalf (deriveParams aspectsHalf rngHalf).1
      (by norm_num [inUnitQ, aspectsHalf]) (fun i => by norm_num [rngHalf])
      rfl).2.2.2.2.2.2.2.2.2.2.1⟩

/-! ## Interpolator lemmas -/

lemma evalAspectsAt_two (L : List Landmark) (h : L.length = 2) (t : ℝ) :
    evalAspectsAt t L =
      some (twoBlend (L.getD 0 defaultLandmark).aspects (L.getD 1 defaultLandmark).aspects
        (cosineEase (warpSegmentT (if t < 0.5 then t * 2 else 2 - t * 2)
          (TIME_WARP_STRENGTH * 0.55)))) := by
  simp only [evalAspectsAt, twoBlend, h]
  norm_num

lemma evalAspectsAt_spline_shape (L : List Landmark) (h3 : 3 ≤ L.length) (t : ℝ) :
    ∃ c1 c2 c3 c4 c5 c6 : ℝ, evalAspectsAt t L =
      some ⟨clamp01 c1, clamp01 c2, clamp01 c3, clamp01 c4, clamp01 c5, clamp01 c6⟩ := by
  have hlt : ¬ L.length < 2 := by omega
  have hne : ¬ L.length = 2 := by omega
  simp only [evalAspectsAt]
  rw [if_neg hlt, if_neg hne]
  exact ⟨_, _, _, _, _, _, rfl⟩

lemma evalAspectsAt_boundary (L : List Landmark) (k : ℕ) (h3 : 3 ≤ L.length)
    (hk : k < L.length) (hin : ∀ l ∈ L, inUnit l.aspects) :
    evalAspectsAt ((k : ℝ) / (L.length : ℝ)) L = some (L.getD k defaultLandmark).aspects := by
  have hn0 : (L.length : ℝ) ≠ 0 := by
    have : (0 : ℝ) < (L.length : ℝ) := by exact_mod_cast Nat.lt_of_lt_of_le (by norm_num) h3
    exact ne_of_gt this
  have hlt : ¬ L.length < 2 := by omega
  have hne : ¬ L.length = 2 := by omega
  simp only [evalAspectsAt]
  rw [if_neg hlt, if_neg hne]
  rw [div_mul_cancel₀ ((k : ℝ)) hn0]
  rw [Int.floor_natCast]
  rw [Int.cast_natCast, sub_self, warpSegmentT_zero]
  simp only [catmullRom_zero]
  have hmod : (k : ℤ) % (L.length : ℤ) = (k : ℤ) :=
    Int.emod_eq_of_lt (by exact_mod_cast Nat.zero_le k) (by exact_mod_cast hk)
  have hget : L.getD k defaultLandmark ∈ L := by
    rw [List.getD_eq_getElem L defaultLandmark hk]
    exact List.getElem_mem hk
  obtain ⟨b1, b2, b3, b4, b5, b6, b7, b8, b9, b10, b11, b12⟩ := hin _ hget
  simp only [nthLandmark, hmod, Int.toNat_natCast]
  rw [clamp01_eq_self b1 b2, clamp01_eq_self b3 b4, clamp01_eq_self b5 b6,
    clamp01_eq_self b7 b8, clamp01_eq_self b9 b10, clamp01_eq_self b11 b12]

/-! ## Claims C1, C5, C10: loop interpolator -/

/-- Claim C1: for a landmark list of length at least 2 with aspect
fields in [0,1], `evalAspectsAt 0` returns exactly landmark 0's aspect
values, and in the two-landmark oscillation `evalAspectsAt 0.5` returns
exactly landmark 1's aspect values. -/
theorem evalAspectsAt_loop_pinned (L : List Landmark) (h2 : 2 ≤ L.length)
    (hin : ∀ l ∈ L, inUnit l.aspects) :
    evalAspectsAt 0 L = some (L[0]).aspects ∧
    (L.length = 2 → evalAspectsAt 0.5 L = some (L[1]).aspects) := by
  constructor
  · rcases Nat.lt_or_ge L.length 3 with hsmall | h3
    · have hL : L.length = 2 := by omega
      rw [evalAspectsAt_two L hL 0]
      have hphase : (if (0 : ℝ) < 0.5 then (0 : ℝ) * 2 else 2 - (0 : ℝ) * 2) = 0 := by
        norm_num
      rw [hphase, warpSegmentT_zero, cosineEase_zero]
      have hblend : twoBlend (L.getD 0 defaultLandmark).aspects
          (L.getD 1 defaultLandmark).aspects 0 = (L.getD 0 defaultLandmark).aspects := by
        simp only [twoBlend, lerp_zero_t]
      rw [hblend, List.getD_eq_getElem L defaultLandmark (by omega : 0 < L.length)]
    · have h0 := evalAspectsAt_boundary L 0 h3 (by omega) hin
      have hz : ((0 : ℕ) : ℝ) / (L.length : ℝ) = 0 := by simp
      rw [hz] at h0
      rw [h0, List.getD_eq_getElem L defaultLandmark (by omega : 0 < L.length)]
  · intro hL
    rw [evalAspectsAt_two L hL 0.5]
    have hphase : (if (0.5 : ℝ) < 0.5 then (0.5 : ℝ) * 2 else 2 - (0.5 : ℝ) * 2) = 1 := by
      norm_num
    rw [hphase, warpSegmentT_one, cosineEase_one]
    have hblend : twoBlend (L.getD 0 defaultLandmark).aspects
        (L.getD 1 defaultLandmark).aspects 1 = (L.getD 1 defaultLandmark).aspects := by
      simp only [twoBlend, lerp_one_t]
    rw [hblend, List.getD_eq_getElem L defaultLandmark (by omega : 1 < L.length)]

/-- Witness for claim C1 on the spec's concrete two-landmark example. -/
theorem evalAspectsAt_loop_pinned_witness :
    2 ≤ pairLandmarks.length ∧ (∀ l ∈ pairLandmarks, inUnit l.aspects) ∧
    (evalAspectsAt 0 pairLandmarks = some ((pairLandmarks[0]).aspects) ∧
      (pairLandmarks.length = 2 →
        evalAspectsAt 0.5 pairLandmarks = some ((pairLandmarks[1]).aspects))) := by
  have hin : ∀ l ∈ pairLandmarks, inUnit l.aspects := by
    intro l hl
    simp only [pairLandmarks, List.mem_cons, List.not_mem_nil, or_false] at hl
    rcases hl with rfl | rfl <;> norm_num [landmarkA, landmarkB, inUnit]
  exact ⟨by norm_num [pairLandmarks], hin,
    evalAspectsAt_loop_pinned pairLandmarks (by norm_num [pairLandmarks]) hin⟩

/-- Claim C5: for a landmark list of length at least 3 with aspect
fields in [0,1], evaluation at the segment boundary t = k/n returns
exactly landmark k's aspect values (the closed Catmull-Rom spline passes
through its control points). -/
theorem evalAspectsAt_spline_boundary (L : List Landmark) (k : ℕ) (h3 : 3 ≤ L.length)
    (hk : k < L.length) (hin : ∀ l ∈ L, inUnit l.aspects) :
    evalAspectsAt ((k : ℝ) / (L.length : ℝ)) L = some (L[k]).aspects := by
  rw [evalAspectsAt_boundary L k h3 hk hin,
    List.getD_eq_getElem L defaultLandmark hk]

/-- Witness for claim C5 on a concrete three-landmark loop at k = 1. -/
theorem evalAspectsAt_spline_boundary_witness :
    3 ≤ triLandmarks.length ∧ 1 < triLandmarks.length ∧
    (∀ l ∈ triLandmarks, inUnit l.aspects) ∧
    evalAspectsAt (((1 : ℕ) : ℝ) / (triLandmarks.length : ℝ)) triLandmarks =
      some ((triLandmarks[1]).aspects) := by
  have hin : ∀ l ∈ triLandmarks, inUnit l.aspects := by
    intro l hl
    simp only [triLandmarks, List.mem_cons, List.not_mem_nil, or_false] at hl
    rcases hl with rfl | rfl | rfl <;> norm_num [landmarkA, landmarkB, landmarkC, inUnit]
  exact ⟨by norm_num [triLandmarks], by norm_num [triLandmarks], hin,
    evalAspectsAt_spline_boundary triLandmarks 1 (by norm_num [triLandmarks])
      (by norm_num [triLandmarks]) hin⟩

/-- Claim C10: for tNorm in [0,1) and a landmark list of length at
least 2 with all aspect fields in [0,1], the interpolator returns an
aspect set and every one of its fields lies in [0,1] — via the unit
cosine-eased blend in the two-landmark branch and via the clamp in the
spline branch. -/
theorem evalAspectsAt_unit_range (t : ℝ) (L : List Landmark) (ht0 : 0 ≤ t) (ht1 : t < 1)
    (h2 : 2 ≤ L.length) (hin : ∀ l ∈ L, inUnit l.aspects) :
    ∃ a, evalAspectsAt t L = some a ∧ inUnit a := by
  rcases Nat.lt_or_ge L.length 3 with hsmall | h3
  · have hL : L.length = 2 := by omega
    have hm0 : L.getD 0 defaultLandmark ∈ L := by
      rw [List.getD_eq_getElem L defaultLandmark (by omega : 0 < L.length)]
      exact List.getElem_mem _
    have hm1 : L.getD 1 defaultLandmark ∈ L := by
      rw [List.getD_eq_getElem L defaultLandmark (by omega : 1 < L.length)]
      exact List.getElem_mem _
    obtain ⟨a1, a2, a3, a4, a5, a6, a7, a8, a9, a10, a11, a12⟩ := hin _ hm0
    obtain ⟨c1, c2, c3, c4, c5, c6, c7, c8, c9, c10, c11, c12⟩ := hin _ hm1
    have hu := cosineEase_mem (warpSegmentT (if t < 0.5 then t * 2 else 2 - t * 2)
      (TIME_WARP_STRENGTH * 0.55))
    refine ⟨_, evalAspectsAt_two L hL t, ?_⟩
    simp only [twoBlend, inUnit]
    exact ⟨(lerp_unit_mem a1 a2 c1 c2 hu.1 hu.2).1, (lerp_unit_mem a1 a2 c1 c2 hu.1 hu.2).2,
      (lerp_unit_mem a3 a4 c3 c4 hu.1 hu.2).1, (lerp_unit_mem a3 a4 c3 c4 hu.1 hu.2).2,
      (lerp_unit_mem a5 a6 c5 c6 hu.1 hu.2).1, (lerp_unit_mem a5 a6 c5 c6 hu.1 hu.2).2,
      (lerp_unit_mem a7 a8 c7 c8 hu.1 hu.2).1, (lerp_unit_mem a7 a8 c7 c8 hu.1 hu.2).2,
      (lerp_unit_mem a9 a10 c9 c10 hu.1 hu.2).1, (lerp_unit_mem a9 a10 c9 c10 hu.1 hu.2).2,
      (lerp_unit_mem a11 a12 c11 c12 hu.1 hu.2).1, (lerp_unit_mem a11 a12 c11 c12 hu.1 hu.2).2⟩
  · obtain ⟨c1, c2, c3, c4, c5, c6, hshape⟩ := evalAspectsAt_spline_shape L h3 t
    refine ⟨_, hshape, ?_⟩
    exact ⟨clamp01_nonneg _, clamp01_le_one _, clamp01_nonneg _, clamp01_le_one _,
      clamp01_nonneg _, clamp01_le_one _, clamp01_nonneg _, clamp01_le_one _,
      clamp01_nonneg _, clamp01_le_one _, clamp01_nonneg _, clamp01_le_one _⟩

/-- Witness for claim C10 at t = 1/4 on the concrete two-landmark loop. -/
theorem evalAspectsAt_unit_range_witness :
    (0 : ℝ) ≤ 1/4 ∧ (1/4 : ℝ) < 1 ∧ 2 ≤ pairLandmarks.length ∧
    (∀ l ∈ pairLandmarks, inUnit l.aspects) ∧
    ∃ a, evalAspectsAt (1/4) pairLandmarks = some a ∧ inUnit a := by
  have hin : ∀ l ∈ pairLandmarks, inUnit l.aspects := by
    intro l hl
    simp only [pairLandmarks, List.mem_cons, List.not_mem_nil, or_false] at hl
    rcases hl with rfl | rfl <;> norm_num [landmarkA, landmarkB, inUnit]
  exact ⟨by norm_num, by norm_num, by norm_num [pairLandmarks], hin,
    evalAspectsAt_unit_range (1/4) pairLandmarks (by norm_num) (by norm_num)
      (by norm_num [pairLandmarks]) hin⟩

/-! ## Claim C2: PRNG determinism and range -/

/-- Claim C2: the PRNG hierarchy built from a seed string is a pure
function of the string alone — two constructions from equal seeds agree
on (at least) the first 10000 draws — and every drawn value lies in
[0,1). -/
theorem prngDraw_deterministic_inRange (s₁ s₂ : List ℕ) (h : s₁ = s₂) (n : ℕ)
    (hn : n < 10000) :
    prngDraw s₁ n = prngDraw s₂ n ∧ 0 ≤ prngDraw s₁ n ∧ prngDraw s₁ n < 1 := by
  subst h
  refine ⟨rfl, ?_, ?_⟩
  · unfold prngDraw
    positivity
  · unfold prngDraw
    rw [div_lt_one (by norm_num [U32])]
    have hlt : mulberryVal (mulberryState (xmur3Mix (xmur3Init s₁)) (n + 1)) < U32 := by
      simp only [mulberryVal]
      exact Nat.mod_lt _ (by norm_num [U32])
    exact_mod_cast hlt

/-- Witness for claim C2: the empty seed string, first draw. -/
theorem prngDraw_deterministic_inRange_witness :
    ([] : List ℕ) = ([] : List ℕ) ∧ (0 : ℕ) < 10000 ∧
    (prngDraw [] 0 = prngDraw [] 0 ∧ 0 ≤ prngDraw [] 0 ∧ prngDraw [] 0 < 1) :=
  ⟨rfl, by norm_num, prngDraw_deterministic_inRange [] [] rfl 0 (by norm_num)⟩

/-! ## Claim C6: fractional element counts in the renderer -/

lemma fracWeights_get (c : ℚ) (i : ℕ) (hi : i < (⌊c⌋).toNat + 1) :
    (fracWeights c).getD i 0 = if i = (⌊c⌋).toNat then c - (⌊c⌋ : ℚ) else 1 := by
  unfold fracWeights
  rw [List.getD_eq_getElem _ _ (by simpa using hi)]
  simp

lemma fracWeights_spec (c : ℚ) (hc : 0 ≤ c) :
    (fracWeights c).length = (⌊c⌋).toNat + 1 ∧
    (c - (⌊c⌋ : ℚ) ≠ 0 → (fracWeights c).length = (⌈c⌉).toNat) ∧
    (∀ i, i < (⌊c⌋).toNat → (fracWeights c).getD i 0 = 1) ∧
    (fracWeights c).getD ((⌊c⌋).toNat) 0 = c - (⌊c⌋ : ℚ) := by
  have hflr : 0 ≤ ⌊c⌋ := Int.floor_nonneg.mpr hc
  have hlen : (fracWeights c).length = (⌊c⌋).toNat + 1 := by
    simp [fracWeights]
  refine ⟨hlen, ?_, ?_, ?_⟩
  · intro hfr
    rw [Int.self_sub_floor] at hfr
    have h1 : ((⌈c⌉ : ℚ)) = c + 1 - Int.fract c := Int.ceil_eq_add_one_sub_fract hfr
    have h2 : Int.fract c = c - (⌊c⌋ : ℚ) := (Int.self_sub_floor c).symm
    have h3 : ((⌈c⌉ : ℚ)) = ((⌊c⌋ : ℚ)) + 1 := by
      rw [h1, h2]
      ring
    have h4 : ⌈c⌉ = ⌊c⌋ + 1 := by exact_mod_cast h3
    rw [hlen, h4]
    omega
  · intro i hi
    rw [fracWeights_get c i (by omega), if_neg (by omega)]
  · rw [fracWeights_get c _ (by omega), if_pos rfl]

/-- Counterexample to claim C6 as stated: at radiance 0 the glow count
is the integer 6, the renderer's loop draws floor(6)+1 = 7 elements
(the last at zero opacity), not ceil(6) = 6. -/
theorem fracWeights_ceil_counterexample :
    glowCountF aspectsZero.radiance ∈ renderCounts aspectsZero rngZero ∧
    (fracWeights (glowCountF aspectsZero.radiance)).length ≠
      (⌈glowCountF aspectsZero.radiance⌉).toNat := by
  constructor
  · simp [renderCounts]
  · norm_num [glowCountF, lerp, fracWeights, aspectsZero]

/-- Claim C6 (amended): for every fractional element count produced
during a render (glow count, node count, shard-layer count,
shards-per-layer count) the renderer draws floor(count)+1 elements —
which equals ceil(count) whenever the count is not an integer, the case
the spec's fade-in/out mechanism addresses — scaling only the last
element's opacity/weight by frac(count) while all earlier elements get
full weight 1. -/
theorem renderCounts_fracBlend (a : Aspects ℚ) (rng : Rng) (hrad : 0 ≤ a.radiance) :
    ∀ c ∈ renderCounts a rng, 0 ≤ c ∧
      (fracWeights c).length = (⌊c⌋).toNat + 1 ∧
      (c - (⌊c⌋ : ℚ) ≠ 0 → (fracWeights c).length = (⌈c⌉).toNat) ∧
      (∀ i, i < (⌊c⌋).toNat → (fracWeights c).getD i 0 = 1) ∧
      (fracWeights c).getD ((⌊c⌋).toNat) 0 = c - (⌊c⌋ : ℚ) := by
  intro c hc
  have hd0 : 0 ≤ clamp01 (lerp 0.15 0.95 a.recursion + 0.08 * a.vulnerability) :=
    clamp01_nonneg _
  have key := countF_nonneg hd0
  have hglow : 0 ≤ glowCountF a.radiance := by
    unfold glowCountF lerp
    nlinarith
  simp only [renderCounts, deriveParams, Rng.next, List.mem_cons, List.not_mem_nil,
    or_false] at hc
  rcases hc with rfl | rfl | rfl | rfl
  · exact ⟨hglow, fracWeights_spec _ hglow⟩
  · exact ⟨key.1, fracWeights_spec _ key.1⟩
  · exact ⟨key.2.1, fracWeights_spec _ key.2.1⟩
  · exact ⟨key.2.2, fracWeights_spec _ key.2.2⟩

/-- Witness for the amended claim C6 at a concrete aspect input. -/
theorem renderCounts_fracBlend_witness :
    0 ≤ aspectsHalf.radiance ∧
    (∀ c ∈ renderCounts aspectsHalf rngHalf, 0 ≤ c ∧
      (fracWeights c).length = (⌊c⌋).toNat + 1 ∧
      (c - (⌊c⌋ : ℚ) ≠ 0 → (fracWeights c).length = (⌈c⌉).toNat) ∧
      (∀ i, i < (⌊c⌋).toNat → (fracWeights c).getD i 0 = 1) ∧
      (fracWeights c).getD ((⌊c⌋).toNat) 0 = c - (⌊c⌋ : ℚ)) :=
  ⟨by norm_num [aspectsHalf],
   renderCounts_fracBlend aspectsHalf rngHalf (by norm_num [aspectsHalf])⟩

/-! ## Claim C7: cancellation in the pre-render pipeline -/

lemma preRenderGo_done (c : ℕ → Bool) (total f : ℕ) (acc : List ℕ) (hf : ¬ f < total) :
    preRenderGo c total f acc = ⟨some acc, acc, []⟩ := by
  unfold preRenderGo
  rw [dif_neg hf]

lemma preRenderGo_cancel (c : ℕ → Bool) (total f : ℕ) (acc : List ℕ)
    (hf : f < total) (hc : c f = true) :
    preRenderGo c total f acc = ⟨none, acc, acc⟩ := by
  unfold preRenderGo
  rw [dif_pos hf, if_pos hc]

lemma preRenderGo_step (c : ℕ → Bool) (total f : ℕ) (acc : List ℕ)
    (hf : f < total) (hc : c f = false) :
    preRenderGo c total f acc = preRenderGo c total (f + 1) (acc ++ [f]) := by
  conv_lhs => unfold preRenderGo
  rw [dif_pos hf, if_neg (by simp [hc])]

lemma preRenderGo_spec (c : ℕ → Bool) (total : ℕ) :
    ∀ k f acc, total - f ≤ k →
      ((preRenderGo c total f acc).result = none →
        (preRenderGo c total f acc).closed = (preRenderGo c total f acc).captured) ∧
      (∀ l, (preRenderGo c total f acc).result = some l →
        l = (preRenderGo c total f acc).captured ∧
        (preRenderGo c total f acc).closed = [] ∧
        l.length = acc.length + (total - f)) ∧
      ((∃ g, f ≤ g ∧ g < total ∧ c g = true) →
        (preRenderGo c total f acc).result = none) := by
  intro k
  induction k with
  | zero =>
    intro f acc hk
    have hf : ¬ f < total := by omega
    rw [preRenderGo_done c total f acc hf]
    refine ⟨by simp, ?_, ?_⟩
    · intro l hl
      simp only [Option.some.injEq] at hl
      subst hl
      exact ⟨rfl, rfl, by omega⟩
    · rintro ⟨g, hg1, hg2, _⟩
      exact absurd (by omega : f < total) hf
  | succ k ih =>
    intro f acc hk
    by_cases hf : f < total
    · cases hcf : c f
      · rw [preRenderGo_step c total f acc hf hcf]
        have hstep := ih (f + 1) (acc ++ [f]) (by omega)
        refine ⟨hstep.1, ?_, ?_⟩
        · intro l hl
          have h2 := hstep.2.1 l hl
          refine ⟨h2.1, h2.2.1, ?_⟩
          rw [h2.2.2]
          simp only [List.length_append, List.length_singleton]
          omega
        · rintro ⟨g, hg1, hg2, hg3⟩
          apply hstep.2.2
          refine ⟨g, ?_, hg2, hg3⟩
          rcases Nat.eq_or_lt_of_le hg1 with rfl | hlt
          · rw [hcf] at hg3
            exact absurd hg3 (by simp)
          · omega
      · rw [preRenderGo_cancel c total f acc hf hcf]
        refine ⟨fun _ => rfl, ?_, fun _ => rfl⟩
        intro l hl
        simp at hl
    · rw [preRenderGo_done c total f acc hf]
      refine ⟨by simp, ?_, ?_⟩
      · intro l hl
        simp only [Option.some.injEq] at hl
        subst hl
        exact ⟨rfl, rfl, by omega⟩
      · rintro ⟨g, hg1, hg2, _⟩
        exact absurd (by omega : f < total) hf

/-- Claim C7: whenever the cancellation predicate fires at some frame
boundary, `preRenderFrames` returns the cancelled signal (none) with
every captured frame bitmap closed; and it never returns a partial
list — a returned frame list has exactly `totalFrames` entries and
nothing was closed. -/
theorem preRenderFrames_cancel_safe (isCancelled : ℕ → Bool) (total : ℕ) :
    ((∃ f, f < total ∧ isCancelled f = true) →
      (preRenderFrames isCancelled total).result = none ∧
      (preRenderFrames isCancelled total).closed =
        (preRenderFrames isCancelled total).captured) ∧
    (∀ l, (preRenderFrames isCancelled total).result = some l →
      l = (preRenderFrames isCancelled total).captured ∧
      (preRenderFrames isCancelled total).closed = [] ∧ l.length = total) := by
  have h := preRenderGo_spec isCancelled total total 0 [] (by omega)
  unfold preRenderFrames
  constructor
  · rintro ⟨f, hf, hc⟩
    have hres := h.2.2 ⟨f, Nat.zero_le f, hf, hc⟩
    exact ⟨hres, h.1 hres⟩
  · intro l hl
    have h2 := h.2.1 l hl
    exact ⟨h2.1, h2.2.1, by simpa using h2.2.2⟩

/-- Witness for claim C7: four frames, cancellation at frame 2. -/
theorem preRenderFrames_cancel_safe_witness :
    (∃ f, f < 4 ∧ (fun g => g == 2) f = true) ∧
    ((preRenderFrames (fun g => g == 2) 4).result = none ∧
      (preRenderFrames (fun g => g == 2) 4).closed =
        (preRenderFrames (fun g => g == 2) 4).captured) :=
  ⟨⟨2, by norm_num, rfl⟩,
   (preRenderFrames_cancel_safe (fun g => g == 2) 4).1 ⟨2, by norm_num, rfl⟩⟩

/-! ## Claim C8: export encoder fallback -/

lemma exportBufferViaPng_spec (n fps durationMs : ℕ) :
    (exportBufferViaPng n fps durationMs).kind = "frames" ∧
    (exportBufferViaPng n fps durationMs).frameList = List.range n ∧
    ((exportBufferViaPng n fps durationMs).frameList).length = n :=
  ⟨rfl, rfl, by simp [exportBufferViaPng, ExportRec.frameList]⟩

lemma exportBufferViaWebCodecs_none_of_unsupported (host : Host)
    (n fps durationMs : ℕ)
    (h : ∀ cand ∈ codecCandidates, host.codecSupported cand = false) :
    exportBufferViaWebCodecs host n fps durationMs = none := by
  have hcc : chooseCodec host = none := by
    unfold chooseCodec
    apply List.find?_eq_none.mpr
    intro x hx
    simp [h x hx]
  unfold exportBufferViaWebCodecs
  rw [hcc]

lemma exportBufferViaWebCodecs_none_of_small (host : Host)
    (n fps durationMs : ℕ) (h : host.videoBlobSize < 1024) :
    exportBufferViaWebCodecs host n fps durationMs = none := by
  unfold exportBufferViaWebCodecs
  cases hcc : chooseCodec host
  · rfl
  · cases ht : host.encodeThrows
    · simp [ht, h]
    · simp [ht]

/-- Counterexample to claim C8 as stated: with no video-encoding
capability, the fallback result is tagged with the kind string
`frames`, not `frame-sequence`. -/
theorem exportFromBuffer_tag_counterexample :
    (exportFromBuffer hostNone [0, 1] 24 1000).kind = "frames" ∧
    (exportFromBuffer hostNone [0, 1] 24 1000).kind ≠ "frame-sequence" := by
  constructor
  · rfl
  · decide

/-- Claim C8 (amended): if the host reports every codec candidate as
unsupported, or lacks video-encoding capability entirely, or the
produced video payload is below the sanity-size threshold,
`exportFromBuffer` surfaces no error: it returns the frame-sequence
fallback — tagged with kind `frames` (the source's tag for the
frame-sequence result) — whose ordered, indexed frame list has length
equal to the number of input frames. -/
theorem exportFromBuffer_fallback (host : Host) (frames : List ℕ) (fps durationMs : ℕ)
    (h : host.hasVideoEncoder = false ∨
      (∀ cand ∈ codecCandidates, host.codecSupported cand = false) ∨
      host.videoBlobSize < 1024) :
    (exportFromBuffer host frames fps durationMs).kind = "frames" ∧
    (exportFromBuffer host frames fps durationMs).frameList = List.range frames.length ∧
    ((exportFromBuffer host frames fps durationMs).frameList).length = frames.length := by
  unfold exportFromBuffer
  cases hv : host.hasVideoEncoder
  · simp only [Bool.false_eq_true, if_false]
    exact exportBufferViaPng_spec frames.length fps durationMs
  · rcases h with h | h | h
    · rw [hv] at h
      simp at h
    · simp only [if_true]
      rw [exportBufferViaWebCodecs_none_of_unsupported host frames.length fps durationMs h]
      exact exportBufferViaPng_spec frames.length fps durationMs
    · simp only [if_true]
      rw [exportBufferViaWebCodecs_none_of_small host frames.length fps durationMs h]
      exact exportBufferViaPng_spec frames.length fps durationMs

/-- Witness for the amended claim C8 on a concrete host and frame list. -/
theorem exportFromBuffer_fallback_witness :
    (hostNone.hasVideoEncoder = false ∨
      (∀ cand ∈ codecCandidates, hostNone.codecSupported cand = false) ∨
      hostNone.videoBlobSize < 1024) ∧
    ((exportFromBuffer hostNone [0, 1] 24 1000).kind = "frames" ∧
      (exportFromBuffer hostNone [0, 1] 24 1000).frameList =
        List.range ([0, 1] : List ℕ).length ∧
      ((exportFromBuffer hostNone [0, 1] 24 1000).frameList).length =
        ([0, 1] : List ℕ).length) :=
  ⟨Or.inl rfl, exportFromBuffer_fallback hostNone [0, 1] 24 1000 (Or.inl rfl)⟩

/-! ## Claim C9: animation manifest fields -/

/-- Counterexample to claim C9 as stated: the manifest carries the
top-level field `seed`, which the claimed field-exact set does not
contain (likewise `export_kind`, `generated_at`, `files`). -/
theorem animManifest_extra_field_counterexample :
    "seed" ∈ animManifestKeys ∧ "seed" ∉ specManifestKeys := by
  constructor <;> decide

/-- Claim C9 (amended): the animation manifest contains every field of
the spec's claimed set (with kind valued `animation` and motion_blur
sub-fields enabled/decay/add), but additionally the four top-level
fields export_kind, seed, generated_at and files — so the claimed set
is a strict subset rather than field-exact. -/
theorem animManifest_keys :
    List.Perm animManifestKeys
      (specManifestKeys ++ ["export_kind", "seed", "generated_at", "files"]) ∧
    animManifestKindValue = "animation" ∧
    motionBlurKeys = ["enabled", "decay", "add"] := by
  refine ⟨?_, rfl, rfl⟩
  decide
